import Mathlib

/-!
Verification of the engine-to-reactor bridge (`cma::Multi` and its nested
`PerformHandler`) from `src/include/curl-multi-asio/Multi.h`, as a shallow
embedding.  Handles (`CURL*`, `CURLM*`) are modelled as `Nat` identities
(with `0` standing for a null pointer); observable effects of an operation
(calls into the curl multi engine, invocations of the caller's completion
handler) are recorded as an explicit trace of `Action`s.  Bodies declared in
the header but implemented in a translation unit that is not part of the
sources (the two `Multi::Cancel` overloads and the `Multi` constructor) are
modelled from the specification and marked as such in their doc comments.
-/

namespace CMA

/-- Result codes of the multi engine (the `CURLMcode` enum used by the
header: `CURLM_OK` signals success of `curl_multi_add_handle`). -/
inductive CURLMcode where
  | CURLM_OK
  | CURLM_BAD_HANDLE
  | CURLM_BAD_EASY_HANDLE
  | CURLM_OUT_OF_MEMORY
  | CURLM_INTERNAL_ERROR
  | CURLM_BAD_SOCKET
  | CURLM_UNKNOWN_OPTION
  | CURLM_ADDED_ALREADY
deriving DecidableEq, Repr

/-- Values of `cma::error_code` that the bridge passes to completion
handlers: success, an engine-level code (implicitly converted from a
`CURLMcode`), or the reactor's cancellation code
`asio::error::operation_aborted`. -/
inductive error_code where
  | success
  | curlm (code : CURLMcode)
  | operation_aborted
deriving DecidableEq, Repr

/-- Options that `Multi::AsyncPerform` sets on the easy handle before
registration (Multi.h lines 151-154). -/
inductive COption where
  | CURLOPT_OPENSOCKETFUNCTION
  | CURLOPT_OPENSOCKETDATA
  | CURLOPT_CLOSESOCKETFUNCTION
  | CURLOPT_CLOSESOCKETDATA
deriving DecidableEq, Repr

/-- Observable effects of the bridge: option writes on an easy handle,
`curl_multi_add_handle`, `curl_multi_remove_handle`, invocation of the
caller's completion handler (`m_handler(ec)`), and `SetHandled(true)`. -/
inductive Action where
  | setOpt (easy : Nat) (opt : COption)
  | addHandle (multi easy : Nat)
  | removeHandle (multi easy : Nat)
  | invokeHandler (easy : Nat) (ec : error_code)
  | markHandled (easy : Nat)
deriving DecidableEq, Repr

/-- State of `Multi::PerformHandler` (Multi.h lines 35-86): the easy and
multi handles captured at construction and the `m_handled` one-shot flag
of the base class, which `PerformHandlerBase` initializes to `false`. -/
structure PerformHandler where
  m_easyHandle : Nat
  m_multiHandle : Nat
  m_handled : Bool
deriving DecidableEq, Repr

/-- Constructor of `PerformHandler` (Multi.h lines 66-67): stores the two
handles; `m_handled` starts out `false` (Multi.h line 60). -/
def mkPerformHandler (easyHandle multiHandle : Nat) : PerformHandler :=
  { m_easyHandle := easyHandle, m_multiHandle := multiHandle, m_handled := false }

/-- Accessor `PerformHandlerBase::Handled` (Multi.h line 53). -/
def PerformHandler.Handled (h : PerformHandler) : Bool := h.m_handled

/-- Translation of `PerformHandler::Complete` (Multi.h lines 75-83): if the
handler is already handled, return immediately; otherwise call
`curl_multi_remove_handle`, invoke the stored handler with `ec`, then set
the handled flag.  Returns the updated handler state and the effect trace
in program order. -/
def PerformHandler.Complete (h : PerformHandler) (ec : error_code) :
    PerformHandler × List Action :=
  if h.Handled then (h, [])
  else ({ h with m_handled := true },
    [Action.removeHandle h.m_multiHandle h.m_easyHandle,
     Action.invokeHandler h.m_easyHandle ec,
     Action.markHandled h.m_easyHandle])

/-- Translation of `PerformHandler::~PerformHandler` (Multi.h lines 68-73):
if the handler has not been handled, self-complete with
`asio::error::operation_aborted`.  The destructor only produces effects;
the object ceases to exist afterwards. -/
def PerformHandler.destruct (h : PerformHandler) : List Action :=
  if h.Handled = false then (h.Complete error_code.operation_aborted).2 else []

/-- Runs a finite sequence of `Complete` calls against a handler (normal
drain and cancellation paths both complete a handler this way), threading
the state and concatenating the traces. -/
def runCompletes (h : PerformHandler) (ecs : List error_code) :
    PerformHandler × List Action :=
  match ecs with
  | [] => (h, [])
  | ec :: rest =>
    let stepResult := h.Complete ec
    let tail := runCompletes stepResult.1 rest
    (tail.1, stepResult.2 ++ tail.2)

/-- The full observable lifetime of a handler: an arbitrary sequence of
`Complete` calls (from drain, rejection or cancellation paths) followed by
destruction of the owner's `unique_ptr`, which runs the destructor. -/
def lifetimeTrace (h : PerformHandler) (ecs : List error_code) : List Action :=
  (runCompletes h ecs).2 ++ (runCompletes h ecs).1.destruct

/-- Recognizes an invocation of a completion handler. -/
def isInvoke (a : Action) : Bool :=
  match a with
  | Action.invokeHandler _ _ => true
  | _ => false

/-- Number of completion-handler invocations in a trace. -/
def invokeCountAll (tr : List Action) : Nat := tr.countP isInvoke

/-- Recognizes an invocation of the completion handler of easy handle `e`. -/
def isInvokeFor (e : Nat) (a : Action) : Bool :=
  match a with
  | Action.invokeHandler e2 _ => e2 == e
  | _ => false

/-- Number of completion-handler invocations for easy handle `e`. -/
def invokeCountFor (e : Nat) (tr : List Action) : Nat := tr.countP (isInvokeFor e)

/-- Recognizes a `curl_multi_remove_handle` call. -/
def isRemove (a : Action) : Bool :=
  match a with
  | Action.removeHandle _ _ => true
  | _ => false

/-- Number of `curl_multi_remove_handle` calls in a trace. -/
def removeCountAll (tr : List Action) : Nat := tr.countP isRemove

/-- Recognizes a handler invocation carrying the cancellation code
`asio::error::operation_aborted`. -/
def isAbortInvoke (a : Action) : Bool :=
  match a with
  | Action.invokeHandler _ ec => ec == error_code.operation_aborted
  | _ => false

/- ------------------------------------------------------------------ -/
/- Helper lemmas about PerformHandler.                                 -/
/- ------------------------------------------------------------------ -/

theorem Complete_of_handled (h : PerformHandler) (ec : error_code)
    (hh : h.Handled = true) : h.Complete ec = (h, []) := by
  simp [PerformHandler.Complete, hh]

theorem Complete_handled_after (h : PerformHandler) (ec : error_code) :
    (h.Complete ec).1.Handled = true := by
  cases hb : h.m_handled <;>
    simp [PerformHandler.Complete, PerformHandler.Handled, hb]

theorem Complete_of_unhandled (h : PerformHandler) (ec : error_code)
    (hh : h.Handled = false) :
    h.Complete ec = ({ h with m_handled := true },
      [Action.removeHandle h.m_multiHandle h.m_easyHandle,
       Action.invokeHandler h.m_easyHandle ec,
       Action.markHandled h.m_easyHandle]) := by
  simp [PerformHandler.Complete, hh]

theorem runCompletes_of_handled (h : PerformHandler) (ecs : List error_code)
    (hh : h.Handled = true) : runCompletes h ecs = (h, []) := by
  induction ecs with
  | nil => rfl
  | cons ec rest ih =>
    simp [runCompletes, Complete_of_handled h ec hh, ih]

theorem destruct_of_handled (h : PerformHandler) (hh : h.Handled = true) :
    h.destruct = [] := by
  simp [PerformHandler.destruct, hh]

/- ------------------------------------------------------------------ -/
/- The Multi bridge state.                                             -/
/- ------------------------------------------------------------------ -/

/-- State of an easy handle as far as `Multi::AsyncPerform` mutates it:
its native identity and the four socket-callback option slots written at
Multi.h lines 151-154 (`data` slots hold the identity of the `Multi`
instance stored as `this`). -/
structure EasyState where
  nativeHandle : Nat
  opensocketfunctionSet : Bool
  opensocketdata : Option Nat
  closesocketfunctionSet : Bool
  closesocketdata : Option Nat
deriving DecidableEq, Repr

/-- State of `cma::Multi`: the object's own identity (its `this` pointer,
installed as callback data), the native `CURLM*` handle (`0` encodes a
null pointer), and `m_easyHandlerMap`, the registry mapping an easy
handle's identity to its stored `PerformHandler` (Multi.h line 236). -/
structure MultiState where
  id : Nat
  m_nativeHandle : Nat
  m_easyHandlerMap : List (Nat × PerformHandler)
deriving DecidableEq, Repr

/-- Modelled from the spec: the body of `Multi::Multi(const
asio::any_io_executor&)` is declared `noexcept` at Multi.h line 95 but
implemented outside the given sources.  Per the spec, construction asks
the engine for an instance (`curl_multi_init`); on failure the stored
native handle is null (`0` here) and the failure is not recovered from —
the state simply keeps the null handle and an empty registry. -/
def mkMulti (id initResult : Nat) : MultiState :=
  { id := id, m_nativeHandle := initResult, m_easyHandlerMap := [] }

/-- Translation of `Multi::operator bool` (Multi.h line 128): the handle
is valid iff `m_nativeHandle != nullptr`. -/
def MultiState.operatorBool (m : MultiState) : Bool := m.m_nativeHandle != 0

/-- Result of one serialized step: the updated bridge state, the updated
easy-handle state, and the effect trace of the step. -/
structure StepResult where
  multi : MultiState
  easy : EasyState
  trace : List Action
deriving DecidableEq, Repr

/-- Translation of the serialized step of `Multi::AsyncPerform` (the
strand-bound lambda, Multi.h lines 147-165): set the four socket-callback
options on the easy handle, construct a fresh `PerformHandler`, call
`curl_multi_add_handle` (whose engine verdict is the parameter
`addResult`); on rejection return `performHandler->Complete(res)` — the
local `unique_ptr` then runs the destructor as the lambda scope closes —
otherwise emplace the handler into `m_easyHandlerMap` (`emplace` inserts
nothing when the key is already present, in which case the fresh handler
is likewise destroyed at scope exit). -/
def asyncPerformStep (m : MultiState) (easy : EasyState) (addResult : CURLMcode) :
    StepResult :=
  let easy1 := { easy with
    opensocketfunctionSet := true, opensocketdata := some m.id,
    closesocketfunctionSet := true, closesocketdata := some m.id }
  let optTrace :=
    [Action.setOpt easy.nativeHandle COption.CURLOPT_OPENSOCKETFUNCTION,
     Action.setOpt easy.nativeHandle COption.CURLOPT_OPENSOCKETDATA,
     Action.setOpt easy.nativeHandle COption.CURLOPT_CLOSESOCKETFUNCTION,
     Action.setOpt easy.nativeHandle COption.CURLOPT_CLOSESOCKETDATA]
  let ph := mkPerformHandler easy.nativeHandle m.m_nativeHandle
  let addTrace := [Action.addHandle m.m_nativeHandle easy.nativeHandle]
  if addResult ≠ CURLMcode.CURLM_OK then
    let done := ph.Complete (error_code.curlm addResult)
    { multi := m, easy := easy1,
      trace := optTrace ++ addTrace ++ done.2 ++ done.1.destruct }
  else if (m.m_easyHandlerMap.lookup easy.nativeHandle).isSome then
    { multi := m, easy := easy1, trace := optTrace ++ addTrace ++ ph.destruct }
  else
    { multi := { m with m_easyHandlerMap := m.m_easyHandlerMap ++ [(easy.nativeHandle, ph)] },
      easy := easy1, trace := optTrace ++ addTrace }

/-- Removes every registry entry keyed by `k`. -/
def eraseKey (k : Nat) (l : List (Nat × PerformHandler)) : List (Nat × PerformHandler) :=
  l.filter (fun p => p.1 != k)

/-- Modelled from the spec: the body of `size_t Multi::Cancel(error_code&,
CURLMcode)` is only declared in the sources (Multi.h lines 177-178).  Per
the spec and the header's doc comment, it forces completion of every
registry entry's `PerformHandler` (each completion calls the handler with
`asio::error::operation_aborted` and unregisters the easy handle from the
engine), clears the registry, and returns the number of operations
cancelled. -/
def MultiState.cancelAll (m : MultiState) : MultiState × List Action × Nat :=
  ({ m with m_easyHandlerMap := [] },
   (m.m_easyHandlerMap.map
     (fun p => (p.2.Complete error_code.operation_aborted).2)).flatten,
   m.m_easyHandlerMap.length)

/-- Modelled from the spec: the body of `bool Multi::Cancel(const Easy&,
CURLMcode)` is only declared in the sources (Multi.h line 186).  Per the
spec, it completes the single matching registry entry with the
cancellation code, erases that entry, and returns whether one was found
and cancelled. -/
def MultiState.cancelOne (m : MultiState) (easy : Nat) : MultiState × List Action × Bool :=
  match m.m_easyHandlerMap.lookup easy with
  | some ph =>
    ({ m with m_easyHandlerMap := eraseKey easy m.m_easyHandlerMap },
     (ph.Complete error_code.operation_aborted).2, true)
  | none => (m, [], false)

/-- Translation of `Multi::~Multi` (Multi.h line 110): the destructor
calls the cancel-all overload (`cma::error_code ignored; Cancel(ignored);`)
and only its effects remain observable. -/
def MultiState.destructMulti (m : MultiState) : List Action := m.cancelAll.2.1

/- ------------------------------------------------------------------ -/
/- Claim theorems C1 - C3.                                             -/
/- ------------------------------------------------------------------ -/

/-- Claim C1: for every transfer launched via `AsyncPerform`, the
completion callback is invoked exactly once over the handler's whole
lifetime — any sequence of `Complete` calls (normal drain, rejection or
cancellation, each with an arbitrary result code) followed by destruction
yields exactly one handler invocation: never zero (the destructor backstop
fires if no `Complete` ever did) and never more than one (the `m_handled`
flag makes later calls no-ops). -/
theorem C1_exactly_once_completion (easyHandle multiHandle : Nat)
    (ecs : List error_code) :
    invokeCountAll (lifetimeTrace (mkPerformHandler easyHandle multiHandle) ecs) = 1 := by
  cases ecs with
  | nil =>
    simp [lifetimeTrace, runCompletes, mkPerformHandler, PerformHandler.destruct,
      PerformHandler.Complete, PerformHandler.Handled, invokeCountAll,
      List.countP, List.countP.go, isInvoke]
  | cons ec rest =>
    have hfresh : (mkPerformHandler easyHandle multiHandle).Handled = false := rfl
    have h1 := Complete_of_unhandled (mkPerformHandler easyHandle multiHandle) ec hfresh
    have h2 : ((mkPerformHandler easyHandle multiHandle).Complete ec).1.Handled = true :=
      Complete_handled_after _ ec
    simp only [lifetimeTrace, runCompletes]
    rw [runCompletes_of_handled _ rest h2, destruct_of_handled _ h2]
    simp [h1, invokeCountAll, List.countP, List.countP.go, isInvoke]

/-- Claim C2: `PerformHandler::Complete` is idempotent — after any
`Complete`, a second call returns the state unchanged and performs no
effects — and on an unhandled handler it performs exactly (a) unregister
from the multi handle, (b) invoke the caller's handler, (c) mark handled,
in that order; the destructor produces handler invocations only by
delegating to `Complete`. -/
theorem C2_complete_idempotent_ordered (h : PerformHandler) (ec ec2 : error_code) :
    ((h.Complete ec).1.Complete ec2 = ((h.Complete ec).1, [])) ∧
    (h.Handled = false →
      (h.Complete ec).2 =
        [Action.removeHandle h.m_multiHandle h.m_easyHandle,
         Action.invokeHandler h.m_easyHandle ec,
         Action.markHandled h.m_easyHandle]) ∧
    (h.destruct = if h.Handled then [] else (h.Complete error_code.operation_aborted).2) := by
  refine ⟨Complete_of_handled _ ec2 (Complete_handled_after h ec), ?_, ?_⟩
  · intro hh
    rw [Complete_of_unhandled h ec hh]
  · cases hb : h.m_handled <;>
      simp [PerformHandler.destruct, PerformHandler.Handled, hb]

/-- Witness for C2 at a concrete fresh handler: the first `Complete`
performs unregister, invoke, mark-handled in that order. -/
theorem C2_witness :
    ((mkPerformHandler 5 7).Complete error_code.success).2 =
      [Action.removeHandle 7 5, Action.invokeHandler 5 error_code.success,
       Action.markHandled 5] :=
  (C2_complete_idempotent_ordered (mkPerformHandler 5 7)
    error_code.success error_code.success).2.1 rfl

/-- Claim C3: the destructor of `PerformHandler` self-completes with the
cancellation code `operation_aborted` when the handler is still unhandled
(so the caller's callback is never silently dropped), and performs nothing
when the handler was already handled. -/
theorem C3_destructor_backstop (h : PerformHandler) :
    h.destruct = if h.Handled then []
      else [Action.removeHandle h.m_multiHandle h.m_easyHandle,
            Action.invokeHandler h.m_easyHandle error_code.operation_aborted,
            Action.markHandled h.m_easyHandle] := by
  cases hb : h.m_handled <;>
    simp [PerformHandler.destruct, PerformHandler.Handled, PerformHandler.Complete, hb]

/- ------------------------------------------------------------------ -/
/- Helper lemmas about the bridge state.                               -/
/- ------------------------------------------------------------------ -/

theorem lookup_eraseKey (k : Nat) (l : List (Nat × PerformHandler)) :
    (eraseKey k l).lookup k = none := by
  induction l with
  | nil => rfl
  | cons a rest ih =>
    obtain ⟨k1, v1⟩ := a
    by_cases hak : k1 = k
    · simpa [eraseKey, List.filter_cons, hak] using ih
    · have hbeq : (k == k1) = false := by
        simp [Nat.beq_eq_true_eq]
        exact fun he => hak he.symm
      simp only [eraseKey] at ih ⊢
      simp [List.filter_cons, hak, List.lookup, hbeq, ih]

theorem cancel_list_counts (l : List (Nat × PerformHandler))
    (hun : ∀ p ∈ l, p.2.Handled = false) :
    invokeCountAll
      ((l.map (fun p => (p.2.Complete error_code.operation_aborted).2)).flatten) = l.length ∧
    ((l.map (fun p => (p.2.Complete error_code.operation_aborted).2)).flatten).countP
      isAbortInvoke = l.length ∧
    removeCountAll
      ((l.map (fun p => (p.2.Complete error_code.operation_aborted).2)).flatten) = l.length := by
  induction l with
  | nil => simp [invokeCountAll, removeCountAll]
  | cons a rest ih =>
    have ha : a.2.Handled = false := hun a (List.mem_cons_self a rest)
    obtain ⟨i1, i2, i3⟩ := ih (fun p hp => hun p (List.mem_cons_of_mem a hp))
    simp only [invokeCountAll, removeCountAll] at i1 i2 i3 ⊢
    simp [List.map_cons, List.flatten_cons, List.countP_append,
      Complete_of_unhandled a.2 _ ha, List.countP_cons, isInvoke, isAbortInvoke,
      isRemove, i1, i2, i3, Nat.add_comm]

theorem cancel_list_mem (l : List (Nat × PerformHandler)) (e : Nat)
    (ph : PerformHandler) (hmem : (e, ph) ∈ l) (hun : ph.Handled = false)
    (hkey : ph.m_easyHandle = e) :
    Action.invokeHandler e error_code.operation_aborted ∈
      ((l.map (fun p => (p.2.Complete error_code.operation_aborted).2)).flatten) := by
  refine List.mem_flatten.mpr
    ⟨((e, ph).2.Complete error_code.operation_aborted).2,
     List.mem_map_of_mem _ hmem, ?_⟩
  rw [Complete_of_unhandled ph _ hun]
  simp [hkey]

/- ------------------------------------------------------------------ -/
/- Claim theorems C4 - C10.                                            -/
/- ------------------------------------------------------------------ -/

/-- Claim C4: when the engine rejects registration
(`curl_multi_add_handle` returns a code other than `CURLM_OK`) inside the
serialized step of `AsyncPerform`, the completion handler is invoked
within that very step with the engine's rejection code — exactly once —
and the handler registry map retains no entry for the easy handle (it is
left exactly as it was before the step). -/
theorem C4_rejection_synchronous (m : MultiState) (easy : EasyState) (res : CURLMcode)
    (hres : res ≠ CURLMcode.CURLM_OK) :
    (asyncPerformStep m easy res).multi.m_easyHandlerMap = m.m_easyHandlerMap ∧
    invokeCountFor easy.nativeHandle (asyncPerformStep m easy res).trace = 1 ∧
    Action.invokeHandler easy.nativeHandle (error_code.curlm res) ∈
      (asyncPerformStep m easy res).trace := by
  simp [asyncPerformStep, hres, mkPerformHandler, PerformHandler.Complete,
    PerformHandler.Handled, PerformHandler.destruct, invokeCountFor,
    List.countP_append, List.countP_cons, isInvokeFor]

/-- Witness for C4: a concrete rejected registration (out-of-memory) on a
bridge with an empty registry invokes the handler once with the rejection
code and leaves the registry unchanged. -/
theorem C4_witness :
    (asyncPerformStep (mkMulti 1 3) (EasyState.mk 4 false none false none)
        CURLMcode.CURLM_OUT_OF_MEMORY).multi.m_easyHandlerMap =
      (mkMulti 1 3).m_easyHandlerMap ∧
    invokeCountFor (EasyState.mk 4 false none false none).nativeHandle
      (asyncPerformStep (mkMulti 1 3) (EasyState.mk 4 false none false none)
        CURLMcode.CURLM_OUT_OF_MEMORY).trace = 1 ∧
    Action.invokeHandler (EasyState.mk 4 false none false none).nativeHandle
        (error_code.curlm CURLMcode.CURLM_OUT_OF_MEMORY) ∈
      (asyncPerformStep (mkMulti 1 3) (EasyState.mk 4 false none false none)
        CURLMcode.CURLM_OUT_OF_MEMORY).trace :=
  C4_rejection_synchronous (mkMulti 1 3) (EasyState.mk 4 false none false none)
    CURLMcode.CURLM_OUT_OF_MEMORY (by decide)

/-- Claim C5: the cancel-all operation on a registry of K pending (still
unhandled) transfers forces exactly K completions, every one carrying the
cancellation code, performs K engine unregistrations, leaves the registry
empty and returns K; on an empty registry it is a no-op returning zero. -/
theorem C5_cancel_all_complete (m : MultiState)
    (hun : ∀ p ∈ m.m_easyHandlerMap, p.2.Handled = false) :
    m.cancelAll.2.2 = m.m_easyHandlerMap.length ∧
    m.cancelAll.1.m_easyHandlerMap = [] ∧
    invokeCountAll m.cancelAll.2.1 = m.m_easyHandlerMap.length ∧
    m.cancelAll.2.1.countP isAbortInvoke = m.m_easyHandlerMap.length ∧
    removeCountAll m.cancelAll.2.1 = m.m_easyHandlerMap.length ∧
    (m.m_easyHandlerMap = [] → m.cancelAll.2.2 = 0 ∧ m.cancelAll.2.1 = []) := by
  obtain ⟨i1, i2, i3⟩ := cancel_list_counts m.m_easyHandlerMap hun
  refine ⟨rfl, rfl, i1, i2, i3, ?_⟩
  intro hempty
  simp [MultiState.cancelAll, hempty]

/-- Witness for C5: cancelling a registry of two fresh pending transfers
yields two cancellation completions, two unregistrations, an empty
registry, and the count two. -/
theorem C5_witness :
    (MultiState.mk 1 2 [(10, mkPerformHandler 10 2), (11, mkPerformHandler 11 2)]).cancelAll.2.2 =
      (MultiState.mk 1 2 [(10, mkPerformHandler 10 2), (11, mkPerformHandler 11 2)]).m_easyHandlerMap.length ∧
    (MultiState.mk 1 2 [(10, mkPerformHandler 10 2), (11, mkPerformHandler 11 2)]).cancelAll.1.m_easyHandlerMap = [] ∧
    invokeCountAll (MultiState.mk 1 2 [(10, mkPerformHandler 10 2), (11, mkPerformHandler 11 2)]).cancelAll.2.1 =
      (MultiState.mk 1 2 [(10, mkPerformHandler 10 2), (11, mkPerformHandler 11 2)]).m_easyHandlerMap.length ∧
    (MultiState.mk 1 2 [(10, mkPerformHandler 10 2), (11, mkPerformHandler 11 2)]).cancelAll.2.1.countP isAbortInvoke =
      (MultiState.mk 1 2 [(10, mkPerformHandler 10 2), (11, mkPerformHandler 11 2)]).m_easyHandlerMap.length ∧
    removeCountAll (MultiState.mk 1 2 [(10, mkPerformHandler 10 2), (11, mkPerformHandler 11 2)]).cancelAll.2.1 =
      (MultiState.mk 1 2 [(10, mkPerformHandler 10 2), (11, mkPerformHandler 11 2)]).m_easyHandlerMap.length ∧
    ((MultiState.mk 1 2 [(10, mkPerformHandler 10 2), (11, mkPerformHandler 11 2)]).m_easyHandlerMap = [] →
      (MultiState.mk 1 2 [(10, mkPerformHandler 10 2), (11, mkPerformHandler 11 2)]).cancelAll.2.2 = 0 ∧
      (MultiState.mk 1 2 [(10, mkPerformHandler 10 2), (11, mkPerformHandler 11 2)]).cancelAll.2.1 = []) :=
  C5_cancel_all_complete
    (MultiState.mk 1 2 [(10, mkPerformHandler 10 2), (11, mkPerformHandler 11 2)])
    (by decide)

/-- Claim C6: cancelling a single easy handle completes only the matching
registry entry when one is present — the call returns `true`, invokes the
handler exactly once (and invokes no other handler), and erases exactly
that entry — and a second cancel of the same transfer returns `false`
with no effects and no re-invocation of the callback. -/
theorem C6_cancel_one_idempotent (m : MultiState) (e : Nat) (ph : PerformHandler)
    (hlook : m.m_easyHandlerMap.lookup e = some ph) (hun : ph.Handled = false)
    (hkey : ph.m_easyHandle = e) :
    (m.cancelOne e).2.2 = true ∧
    invokeCountFor e (m.cancelOne e).2.1 = 1 ∧
    invokeCountAll (m.cancelOne e).2.1 = 1 ∧
    (m.cancelOne e).1.m_easyHandlerMap = eraseKey e m.m_easyHandlerMap ∧
    ((m.cancelOne e).1.cancelOne e) = ((m.cancelOne e).1, [], false) := by
  have hsecond : (eraseKey e m.m_easyHandlerMap).lookup e = none :=
    lookup_eraseKey e m.m_easyHandlerMap
  simp [MultiState.cancelOne, hlook, Complete_of_unhandled ph _ hun,
    invokeCountFor, invokeCountAll, List.countP_cons, isInvokeFor, isInvoke,
    hsecond, hkey]

/-- Witness for C6: on a registry holding one fresh entry for easy handle
10, the first single-cancel succeeds with one invocation and the second
returns not-found with no effects. -/
theorem C6_witness :
    ((MultiState.mk 1 2 [(10, mkPerformHandler 10 2)]).cancelOne 10).2.2 = true ∧
    invokeCountFor 10 ((MultiState.mk 1 2 [(10, mkPerformHandler 10 2)]).cancelOne 10).2.1 = 1 ∧
    invokeCountAll ((MultiState.mk 1 2 [(10, mkPerformHandler 10 2)]).cancelOne 10).2.1 = 1 ∧
    ((MultiState.mk 1 2 [(10, mkPerformHandler 10 2)]).cancelOne 10).1.m_easyHandlerMap =
      eraseKey 10 (MultiState.mk 1 2 [(10, mkPerformHandler 10 2)]).m_easyHandlerMap ∧
    (((MultiState.mk 1 2 [(10, mkPerformHandler 10 2)]).cancelOne 10).1.cancelOne 10) =
      (((MultiState.mk 1 2 [(10, mkPerformHandler 10 2)]).cancelOne 10).1, [], false) :=
  C6_cancel_one_idempotent (MultiState.mk 1 2 [(10, mkPerformHandler 10 2)])
    10 (mkPerformHandler 10 2) (by decide) (by decide) (by decide)

/-- Claim C7: destroying a `Multi` performs a cancel-all — every pending
(unhandled) entry still in the registry at destruction time receives a
completion carrying the cancellation code, so destruction never drops an
outstanding operation silently. -/
theorem C7_destruction_cancels_all (m : MultiState) (e : Nat) (ph : PerformHandler)
    (hmem : (e, ph) ∈ m.m_easyHandlerMap) (hun : ph.Handled = false)
    (hkey : ph.m_easyHandle = e) :
    Action.invokeHandler e error_code.operation_aborted ∈ m.destructMulti :=
  cancel_list_mem m.m_easyHandlerMap e ph hmem hun hkey

/-- Witness for C7: destroying a bridge whose registry holds a fresh
pending transfer for easy handle 10 emits a cancellation completion for
that transfer. -/
theorem C7_witness :
    Action.invokeHandler 10 error_code.operation_aborted ∈
      (MultiState.mk 1 2 [(10, mkPerformHandler 10 2), (11, mkPerformHandler 11 2)]).destructMulti :=
  C7_destruction_cancels_all
    (MultiState.mk 1 2 [(10, mkPerformHandler 10 2), (11, mkPerformHandler 11 2)])
    10 (mkPerformHandler 10 2) (by decide) (by decide) (by decide)

/-- Claim C9: failure of engine construction (a null result from
`curl_multi_init`, encoded as `0`) is observable to the caller as an
invalid instance — `operator bool` is `false` exactly when the stored
native handle is null — and the constructor performs no recovery: the
state keeps the null handle and an empty registry. -/
theorem C9_construction_failure (id initResult : Nat) :
    (mkMulti id initResult).operatorBool = (initResult != 0) ∧
    (mkMulti id initResult).m_nativeHandle = initResult ∧
    (mkMulti id initResult).m_easyHandlerMap = [] :=
  ⟨rfl, rfl, rfl⟩

/-- Claim C10: a rejected registration is not state-neutral on the easy
handle — the serialized step sets the four socket-callback options (with
the `Multi` instance as their data) before the registration attempt, they
remain set after the rejection, and the rejection path still calls
`curl_multi_remove_handle` for the easy handle even though
`curl_multi_add_handle` had failed, as the full step trace shows. -/
theorem C10_rejection_frame_effects (m : MultiState) (easy : EasyState) (res : CURLMcode)
    (hres : res ≠ CURLMcode.CURLM_OK) :
    (asyncPerformStep m easy res).easy =
      { easy with opensocketfunctionSet := true, opensocketdata := some m.id,
                  closesocketfunctionSet := true, closesocketdata := some m.id } ∧
    (asyncPerformStep m easy res).trace =
      [Action.setOpt easy.nativeHandle COption.CURLOPT_OPENSOCKETFUNCTION,
       Action.setOpt easy.nativeHandle COption.CURLOPT_OPENSOCKETDATA,
       Action.setOpt easy.nativeHandle COption.CURLOPT_CLOSESOCKETFUNCTION,
       Action.setOpt easy.nativeHandle COption.CURLOPT_CLOSESOCKETDATA,
       Action.addHandle m.m_nativeHandle easy.nativeHandle,
       Action.removeHandle m.m_nativeHandle easy.nativeHandle,
       Action.invokeHandler easy.nativeHandle (error_code.curlm res),
       Action.markHandled easy.nativeHandle] := by
  simp [asyncPerformStep, hres, mkPerformHandler, PerformHandler.Complete,
    PerformHandler.Handled, PerformHandler.destruct]

/-- Witness for C10: a concrete rejected registration leaves all four
socket options set on the easy handle and its trace contains the engine
unregistration after the failed registration. -/
theorem C10_witness :
    (asyncPerformStep (mkMulti 1 3) (EasyState.mk 4 false none false none)
        CURLMcode.CURLM_ADDED_ALREADY).easy =
      { EasyState.mk 4 false none false none with
          opensocketfunctionSet := true, opensocketdata := some (mkMulti 1 3).id,
          closesocketfunctionSet := true, closesocketdata := some (mkMulti 1 3).id } ∧
    (asyncPerformStep (mkMulti 1 3) (EasyState.mk 4 false none false none)
        CURLMcode.CURLM_ADDED_ALREADY).trace =
      [Action.setOpt 4 COption.CURLOPT_OPENSOCKETFUNCTION,
       Action.setOpt 4 COption.CURLOPT_OPENSOCKETDATA,
       Action.setOpt 4 COption.CURLOPT_CLOSESOCKETFUNCTION,
       Action.setOpt 4 COption.CURLOPT_CLOSESOCKETDATA,
       Action.addHandle (mkMulti 1 3).m_nativeHandle 4,
       Action.removeHandle (mkMulti 1 3).m_nativeHandle 4,
       Action.invokeHandler 4 (error_code.curlm CURLMcode.CURLM_ADDED_ALREADY),
       Action.markHandled 4] :=
  C10_rejection_frame_effects (mkMulti 1 3) (EasyState.mk 4 false none false none)
    CURLMcode.CURLM_ADDED_ALREADY (by decide)

end CMA
